import Mathlib

/-!
Shallow embedding of `ci_scripts/pygha.py`: a CI helper that turns
user-supplied build preferences (Python versions, CPU architectures,
OS platforms and a few build flags) into configuration tokens and CI
job-matrix definitions.

Modelling conventions:
* Python dicts are association lists (`List (String × _)`) in insertion
  order; the assignment `d[k] = v` is `dictSet` (update the entry in place
  when the key exists, otherwise append).
* JSON values from the user configuration are `JVal`; Python truthiness
  and the comparison `value in [True, False]` (which, by Python numeric
  equality, also matches the numbers `1` and `0`) are modelled explicitly.
* The environment variables the script reads are the fields of `Env`;
  list-valued fields hold the result of `.split()` on the raw value, and
  the quiet reads (`PREFER_CCACHE`, `PREFER_VERBOSE_MAKEFILE`) are
  `Option String` (`none` when the variable is absent).
* Fatal paths (`sys.exit(1)`) are `Option`/`Except` error values; an
  uncaught Python exception in the dispatcher is a distinguished result.
* Python's list iterator is an index that advances by one per step while
  the underlying list may shrink (`list.remove` during iteration); the
  loop in `set_os_and_arch` is modelled index-for-index by
  `arch_filter_loop`, including the leftover value of the loop variable.
-/

/-- Python dict assignment `d[k] = v`: replace the value of an existing
entry in place, otherwise append a new entry.  All dicts built by the
script are duplicate-free, for which this recursion is exactly Python's
behavior (the existing entry keeps its position). -/
def dictSet {α : Type} : List (String × α) → String → α → List (String × α)
  | [], k, v => [(k, v)]
  | (a, b) :: t, k, v => if a = k then (k, v) :: t else (a, b) :: dictSet t k v

/-- Python in-place mutation of the value stored at an existing key, such as
`config[k]["required"] = True` (no-op when the key is absent; the script only
mutates keys that are present in its table). -/
def dictUpdate {α : Type} (d : List (String × α)) (k : String) (f : α → α) : List (String × α) :=
  d.map (fun p => if p.1 = k then (k, f p.2) else p)

/-- Split a character list at every character satisfying `p`; adjacent
separators yield empty pieces, like Python `str.split(sep)`. -/
def splitPredAux (p : Char → Bool) : List Char → List Char → List (List Char)
  | [], acc => [acc.reverse]
  | c :: cs, acc =>
    if p c then acc.reverse :: splitPredAux p cs []
    else splitPredAux p cs (c :: acc)

/-- Python `str.split(sep)` for a one-character separator (the script only
splits on `'-'` and `'.'`). -/
def pySplitOn (s : String) (sep : Char) : List String :=
  (splitPredAux (fun c => c == sep) s.data []).map (fun cs => String.mk cs)

/-- Python `str.split()` with no argument: split on whitespace, dropping
empty tokens. -/
def pySplit (s : String) : List String :=
  ((splitPredAux (fun c => c.isWhitespace) s.data []).map (fun cs => String.mk cs)).filter
    (fun t => t ≠ "")

/-- Python `str.replace(pat, rep)` for a non-empty pattern: replace
non-overlapping occurrences left to right.  The fuel starts at the length
of the text, which bounds the number of steps. -/
def pyReplaceAux (pat rep : List Char) : Nat → List Char → List Char
  | _, [] => []
  | 0, cs => cs
  | fuel + 1, c :: cs =>
    if pat.isPrefixOf (c :: cs) then rep ++ pyReplaceAux pat rep fuel ((c :: cs).drop pat.length)
    else c :: pyReplaceAux pat rep fuel cs

/-- Python `str.replace(pat, rep)`. -/
def pyReplace (s pat rep : String) : String :=
  String.mk (pyReplaceAux pat.data rep.data s.data.length s.data)

/-- Python `str.strip()`: drop leading and trailing whitespace. -/
def pyStrip (s : String) : String :=
  String.mk (((s.data.dropWhile (fun c => c.isWhitespace)).reverse.dropWhile
    (fun c => c.isWhitespace)).reverse)

/-- Python `str.lower()` (the script only lowercases ASCII). -/
def pyLower (s : String) : String :=
  String.mk (s.data.map Char.toLower)

/-- Python `str.upper()` (the script only uppercases ASCII). -/
def pyUpper (s : String) : String :=
  String.mk (s.data.map Char.toUpper)

/-- Python `sep.join(parts)`. -/
def pyJoin (sep : String) : List String → String
  | [] => ""
  | [x] => x
  | x :: xs => x ++ sep ++ pyJoin sep xs

/-- JSON values occurring in the user configuration blob. -/
inductive JVal where
  | str : String → JVal
  | bool : Bool → JVal
  | num : Int → JVal
  | null : JVal
deriving DecidableEq

/-- Python `v == True` / `v == False`: Python equality identifies the
booleans with the numbers `1` and `0`. -/
def JVal.eqPyBool : JVal → Bool → Bool
  | .bool b, c => b == c
  | .num n, c => if c then n == 1 else n == 0
  | _, _ => false

/-- Python truthiness of a JSON value. -/
def JVal.pyTruthy : JVal → Bool
  | .bool b => b
  | .num n => !(n == 0)
  | .str s => !(s == "")
  | .null => false

/-- Python f-string rendering of a JSON value. -/
def JVal.render : JVal → String
  | .str s => s
  | .bool b => if b then "True" else "False"
  | .num n => toString n
  | .null => "None"

/-- Python `dict.get(k, dflt)`. -/
def pyDictGet (d : List (String × JVal)) (k : String) (dflt : JVal) : JVal :=
  (d.lookup k).getD dflt

/-- The `ConfigStage` enum of pygha.py. -/
inductive ConfigStage where
  | BUILD_SDIST
  | BUILD_WHEEL
  | VALIDATE_WHEEL
deriving DecidableEq

/-- The environment variables consumed by pygha.py. List-valued fields are
the `.split()` of the raw value of the corresponding `CBCI_*` variable; the
two `PREFER_*` hints are read in quiet mode and may be absent.
`project_type` is `CBCI_PROJECT_TYPE`. -/
structure Env where
  supported_python_versions : List String
  supported_x86_64_platforms : List String
  supported_arm64_platforms : List String
  default_linux_container : String
  default_alpine_container : String
  default_linux_platform : String
  default_macos_x86_64_platform : String
  default_macos_arm64_platform : String
  default_windows_platform : String
  prefer_ccache : Option String
  prefer_verbose_makefile : Option String
  project_type : String

/-- The `SdkProject` enum of pygha.py. -/
inductive SdkProject where
  | Columnar
  | Operational
deriving DecidableEq

/-- The enum member value (`PYCBCC` / `PYCBC`). -/
def SdkProject.value : SdkProject → String
  | .Columnar => "PYCBCC"
  | .Operational => "PYCBC"

/-- `SdkProject.from_env`: resolve the project from `CBCI_PROJECT_TYPE`
(case-insensitive aliases); `none` models the fatal `sys.exit(1)` on any
other value. -/
def SdkProject.from_env (env : Env) : Option SdkProject :=
  let e := env.project_type
  if pyUpper e ∈ ["COLUMNAR", "PYCBCC"] then some .Columnar
  else if pyUpper e ∈ ["OPERATIONAL", "PYCBC"] then some .Operational
  else none

/-- One entry of the `DEFAULT_CONFIG` table (`default`/`description` are
Python `None` when absent; the extra `CCACHE_DIR` entry carries no
description). -/
structure ConfigOption where
  default : Option String
  description : Option String
  required : Bool
  sdk_alias : String
deriving DecidableEq

/-- The static `DEFAULT_CONFIG` table, in source order. -/
def DEFAULT_CONFIG : List (String × ConfigOption) :=
  [("USE_OPENSSL",
    { default := some "OFF", description := some "Use OpenSSL instead of boringssl",
      required := true, sdk_alias := "SDKPROJECT_USE_OPENSSL" }),
   ("OPENSSL_VERSION",
    { default := none, description := some "The version of OpenSSL to use instead of boringssl",
      required := false, sdk_alias := "SDKPROJECT_OPENSSL_VERSION" }),
   ("SET_CPM_CACHE",
    { default := some "ON", description := some "Initialize the C++ core CPM cache",
      required := false, sdk_alias := "SDKPROJECT_SET_CPM_CACHE" }),
   ("USE_LIMITED_API",
    { default := none, description := some "Set to enable use of Py_LIMITED_API",
      required := false, sdk_alias := "SDKPROJECT_LIMITED_API" }),
   ("VERBOSE_MAKEFILE",
    { default := none, description := some "Use verbose logging when configuring/building",
      required := false, sdk_alias := "SDKPROJECT_VERBOSE_MAKEFILE" }),
   ("BUILD_TYPE",
    { default := some "RelWithDebInfo", description := some "Sets the build type when configuring/building",
      required := false, sdk_alias := "SDKPROJECT_BUILD_TYPE" }),
   ("CB_CACHE_OPTION",
    { default := none, description := some "Sets the builds ccache option",
      required := false, sdk_alias := "SDKPROJECT_CB_CACHE_OPTION" })]

/-- The reserved matrix-selection keys skipped by the config emitter. -/
def STAGE_MATRIX_KEYS : List String :=
  ["python-versions", "python_versions", "arches", "platforms"]

/-- `get_supported_python_versions`: `CBCI_SUPPORTED_PYTHON_VERSIONS`, split. -/
def get_supported_python_versions (env : Env) : List String :=
  env.supported_python_versions

/-- `get_supported_architectures`: the fixed architecture whitelist. -/
def get_supported_architectures : List String :=
  ["x86_64", "arm64", "aarch64"]

/-- `get_supported_platforms`: the per-architecture platform whitelist; an
unrecognized architecture prints a diagnostic and returns `[]`. -/
def get_supported_platforms (env : Env) (arch : String) : List String :=
  if arch = "x86_64" then env.supported_x86_64_platforms
  else if arch ∈ ["arm64", "aarch64"] then env.supported_arm64_platforms
  else []

/-- `is_supported_python_version`: one token must be `"3"`, two tokens must
appear verbatim in the whitelist, three tokens are truncated to two before
the whitelist check, anything longer is unsupported. -/
def is_supported_python_version (env : Env) (version : String) : Bool :=
  let version_tokens := pySplitOn version (Char.ofNat 46)
  if version_tokens.length = 1 then version_tokens.headD "" == "3"
  else if version_tokens.length = 2 then decide (version ∈ get_supported_python_versions env)
  else if version_tokens.length = 3 then
    decide (pyJoin "." (version_tokens.take 2) ∈ get_supported_python_versions env)
  else false

/-- `set_python_versions`: split the user value on commas/spaces and keep the
supported versions; a non-string value raises inside the `try` block, which
is caught and yields `[]`. -/
def set_python_versions (env : Env) (user_config : JVal) : List String :=
  match user_config with
  | .str s => (pySplit (pyReplace s "," " ")).filter (fun version => is_supported_python_version env version)
  | _ => []

/-- The `for arch in arches: ... arches.remove(arch)` loop of
`set_os_and_arch`, modelled index-for-index: the iterator keeps an index that
advances by one per step while `remove` deletes the first occurrence of the
current value, so removal skips the following element.  Also returns the
final value of the loop variable `arch`, which the rest of `set_os_and_arch`
keeps using.  The fuel argument starts at the length of the list, which
bounds the number of iterations. -/
def arch_filter_loop (supported : List String) : Nat → List String → Nat → Option String → List String × Option String
  | 0, lst, _, last => (lst, last)
  | fuel + 1, lst, i, last =>
    match lst.get? i with
    | none => (lst, last)
    | some a =>
      if a ∈ supported then arch_filter_loop supported fuel lst (i + 1) (some a)
      else arch_filter_loop supported fuel (lst.erase a) (i + 1) (some a)

/-- Lines 186-201 of `set_os_and_arch`: parse and filter the requested
architectures (a non-string value raises and leaves the list empty), default
to all-but-the-last supported architecture when the list ends up empty, and
drop `aarch64` when `arm64` is also present.  The second component is the
leftover value of the loop variable `arch` (`none` when the loop never ran,
in which case a later use raises `NameError`). -/
def normalize_arches (user_arches : JVal) : List String × Option String :=
  let parsed_result : List String × Option String :=
    match user_arches with
    | .str s =>
      let parsed := (pySplit (pyReplace s "," " ")).map (fun a => pyLower (pyStrip a))
      arch_filter_loop get_supported_architectures parsed.length parsed 0 none
    | _ => ([], none)
  let arches := parsed_result.1
  let last_arch := parsed_result.2
  let arches := if arches = [] then get_supported_architectures.dropLast else arches
  let arches := if "arm64" ∈ arches ∧ "aarch64" ∈ arches then arches.erase "aarch64" else arches
  (arches, last_arch)

/-- `set_os_and_arch`: normalize the architectures, then build the two
platform groups.  Each group filters the parsed platforms against
`get_supported_platforms(arch)` where `arch` is the leftover loop variable
from the architecture loop (when that variable was never bound the lookup
raises `NameError`, caught by the surrounding `try`, leaving the group
empty), and falls back to the full whitelist when the group is empty. -/
def set_os_and_arch (env : Env) (user_platforms user_arches : JVal) : List String × List String :=
  let na := normalize_arches user_arches
  let arches := na.1
  let last_arch := na.2
  let x86_64_platforms :=
    if "x86_64" ∈ arches then
      let filtered :=
        match user_platforms, last_arch with
        | .str s, some arch =>
          ((pySplit (pyReplace s "," " ")).map (fun p => pyLower (pyStrip p))).filter
            (fun p => p ∈ get_supported_platforms env arch)
        | _, _ => []
      if filtered = [] then get_supported_platforms env "x86_64" else filtered
    else []
  let arm64_platforms :=
    if "arm64" ∈ arches ∨ "aarch64" ∈ arches then
      let filtered :=
        match user_platforms, last_arch with
        | .str s, some arch =>
          ((pySplit (pyReplace s "," " ")).map (fun p => pyLower (pyStrip p))).filter
            (fun p => p ∈ get_supported_platforms env arch)
        | _, _ => []
      if filtered = [] then get_supported_platforms env "arm64" else filtered
    else []
  (x86_64_platforms, arm64_platforms)

/-- Values stored in a matrix fragment: lists of strings, or the list of
exclusion dicts stored under the (misspelled) key `exlude`. -/
inductive MVal where
  | strs : List String → MVal
  | excl : List (List (String × String)) → MVal
deriving DecidableEq

/-- Read `matrix[k]` as a string list.  The script only indexes keys it has
already set, so the default branch is unreachable on its own uses. -/
def getStrs (m : List (String × MVal)) (k : String) : List String :=
  match m.lookup k with
  | some (.strs l) => l
  | _ => []

/-- `build_linux_stage_matrix`, translated branch for branch (including the
misspelled `exlude` key). -/
def build_linux_stage_matrix (env : Env) (python_versions x86_64_platforms arm64_platforms : List String)
    (stage : ConfigStage) : List (String × MVal) :=
  let linux_matrix : List (String × MVal) := []
  match stage with
  | .BUILD_WHEEL =>
    let linux_matrix :=
      if "linux" ∈ x86_64_platforms then
        dictSet (dictSet linux_matrix "linux-type" (.strs ["manylinux"])) "arch" (.strs ["x86_64"])
      else linux_matrix
    let linux_matrix :=
      if "linux" ∈ arm64_platforms then
        let linux_matrix :=
          if (linux_matrix.lookup "linux-type").isNone then
            dictSet linux_matrix "linux-type" (.strs ["manylinux"])
          else linux_matrix
        if (linux_matrix.lookup "arch").isNone then dictSet linux_matrix "arch" (.strs ["aarch64"])
        else dictSet linux_matrix "arch" (.strs (getStrs linux_matrix "arch" ++ ["aarch64"]))
      else linux_matrix
    let linux_matrix :=
      if "alpine" ∈ x86_64_platforms then
        let linux_matrix :=
          if (linux_matrix.lookup "linux-type").isNone then
            dictSet linux_matrix "linux-type" (.strs ["musllinux"])
          else dictSet linux_matrix "linux-type" (.strs (getStrs linux_matrix "linux-type" ++ ["musllinux"]))
        if (linux_matrix.lookup "arch").isNone then dictSet linux_matrix "arch" (.strs ["x86_64"])
        else linux_matrix
      else linux_matrix
    if linux_matrix ≠ [] then
      let linux_matrix := dictSet linux_matrix "python-version" (.strs python_versions)
      if "aarch64" ∈ getStrs linux_matrix "arch" ∧ "musllinux" ∈ getStrs linux_matrix "linux-type" then
        dictSet linux_matrix "exlude" (.excl [[("linux-type", "musllinux"), ("arch", "aarch64")]])
      else linux_matrix
    else linux_matrix
  | .VALIDATE_WHEEL =>
    let linux_matrix :=
      if "linux" ∈ x86_64_platforms then
        dictSet (dictSet linux_matrix "container" (.strs [env.default_linux_container])) "arch" (.strs ["x86_64"])
      else linux_matrix
    let linux_matrix :=
      if "linux" ∈ arm64_platforms then
        let linux_matrix :=
          if (linux_matrix.lookup "container").isNone then
            dictSet linux_matrix "container" (.strs [env.default_linux_container])
          else linux_matrix
        if (linux_matrix.lookup "arch").isNone then dictSet linux_matrix "arch" (.strs ["aarch64"])
        else dictSet linux_matrix "arch" (.strs (getStrs linux_matrix "arch" ++ ["aarch64"]))
      else linux_matrix
    let linux_matrix :=
      if "alpine" ∈ x86_64_platforms then
        let linux_matrix :=
          if (linux_matrix.lookup "container").isNone then
            dictSet linux_matrix "container" (.strs [env.default_alpine_container])
          else dictSet linux_matrix "container" (.strs (getStrs linux_matrix "container" ++ [env.default_alpine_container]))
        if (linux_matrix.lookup "arch").isNone then dictSet linux_matrix "arch" (.strs ["x86_64"])
        else linux_matrix
      else linux_matrix
    if linux_matrix ≠ [] then
      let linux_matrix := dictSet linux_matrix "os" (.strs [env.default_linux_platform])
      let linux_matrix := dictSet linux_matrix "python-version" (.strs python_versions)
      if "aarch64" ∈ getStrs linux_matrix "arch" ∧ (linux_matrix.lookup "container").isSome then
        if env.default_alpine_container ∈ getStrs linux_matrix "container" then
          dictSet linux_matrix "exlude" (.excl [[("container", env.default_alpine_container), ("arch", "aarch64")]])
        else linux_matrix
      else linux_matrix
    else linux_matrix
  | .BUILD_SDIST => linux_matrix

/-- `build_macos_stage_matrix`, translated branch for branch. -/
def build_macos_stage_matrix (env : Env) (python_versions x86_64_platforms arm64_platforms : List String)
    (stage : ConfigStage) : List (String × MVal) :=
  let macos_matrix : List (String × MVal) := []
  match stage with
  | .BUILD_WHEEL =>
    let macos_matrix :=
      if "macos" ∈ x86_64_platforms then
        dictSet (dictSet macos_matrix "os" (.strs [env.default_macos_x86_64_platform])) "arch" (.strs ["x86_64"])
      else macos_matrix
    let macos_matrix :=
      if "macos" ∈ arm64_platforms then
        let macos_matrix :=
          if (macos_matrix.lookup "os").isNone then
            dictSet macos_matrix "os" (.strs [env.default_macos_arm64_platform])
          else dictSet macos_matrix "os" (.strs (getStrs macos_matrix "os" ++ [env.default_macos_arm64_platform]))
        if (macos_matrix.lookup "arch").isNone then dictSet macos_matrix "arch" (.strs ["arm64"])
        else dictSet macos_matrix "arch" (.strs (getStrs macos_matrix "arch" ++ ["arm64"]))
      else macos_matrix
    if macos_matrix ≠ [] then
      let macos_matrix := dictSet macos_matrix "python-version" (.strs python_versions)
      if "arm64" ∈ getStrs macos_matrix "arch" ∧ "x86_64" ∈ getStrs macos_matrix "arch" then
        dictSet macos_matrix "exlude"
          (.excl [[("os", env.default_macos_x86_64_platform), ("arch", "arm64")],
                  [("os", env.default_macos_arm64_platform), ("arch", "x86_64")]])
      else macos_matrix
    else macos_matrix
  | .VALIDATE_WHEEL =>
    let macos_matrix :=
      if "macos" ∈ x86_64_platforms then
        dictSet macos_matrix "os" (.strs [env.default_macos_x86_64_platform])
      else macos_matrix
    let macos_matrix :=
      if "macos" ∈ arm64_platforms then
        if (macos_matrix.lookup "os").isNone then
          dictSet macos_matrix "os" (.strs [env.default_macos_arm64_platform])
        else dictSet macos_matrix "os" (.strs (getStrs macos_matrix "os" ++ [env.default_macos_arm64_platform]))
      else macos_matrix
    if macos_matrix ≠ [] then dictSet macos_matrix "python-version" (.strs python_versions)
    else macos_matrix
  | .BUILD_SDIST => macos_matrix

/-- `build_windows_stage_matrix`, translated branch for branch. -/
def build_windows_stage_matrix (env : Env) (python_versions x86_64_platforms arm64_platforms : List String)
    (stage : ConfigStage) : List (String × MVal) :=
  let windows_matrix : List (String × MVal) := []
  match stage with
  | .BUILD_WHEEL | .VALIDATE_WHEEL =>
    let windows_matrix :=
      if "windows" ∈ x86_64_platforms then
        dictSet (dictSet windows_matrix "os" (.strs [env.default_windows_platform])) "arch" (.strs ["AMD64"])
      else windows_matrix
    if windows_matrix ≠ [] then dictSet windows_matrix "python-version" (.strs python_versions)
    else windows_matrix
  | .BUILD_SDIST => windows_matrix

/-- Values of a per-stage result dict: a family matrix fragment, or one of
the `has_<family>` flags. -/
inductive SVal where
  | mat : List (String × MVal) → SVal
  | flag : Bool → SVal
deriving DecidableEq

/-- The `stage_name` expression of `build_stage_matrices`
(`'build_wheels' if stage == ConfigStage.BUILD_WHEEL else 'validate_wheels'`). -/
def stage_name (stage : ConfigStage) : String :=
  if stage = ConfigStage.BUILD_WHEEL then "build_wheels" else "validate_wheels"

/-- The loop body of `build_stage_matrices`: assemble one stage's dict from
the three family builders, attaching each non-empty fragment under its
family name and always recording the `has_<family>` flag. -/
def build_stage_matrices_body (env : Env) (python_versions x86_64_platforms arm64_platforms : List String)
    (stage : ConfigStage) : List (String × SVal) :=
  let stage_matrices : List (String × SVal) := []
  let linux_matrix := build_linux_stage_matrix env python_versions x86_64_platforms arm64_platforms stage
  let stage_matrices :=
    if linux_matrix ≠ [] then
      dictSet (dictSet stage_matrices "linux" (.mat linux_matrix)) "has_linux" (.flag true)
    else dictSet stage_matrices "has_linux" (.flag false)
  let macos_matrix := build_macos_stage_matrix env python_versions x86_64_platforms arm64_platforms stage
  let stage_matrices :=
    if macos_matrix ≠ [] then
      dictSet (dictSet stage_matrices "macos" (.mat macos_matrix)) "has_macos" (.flag true)
    else dictSet stage_matrices "has_macos" (.flag false)
  let windows_matrix := build_windows_stage_matrix env python_versions x86_64_platforms arm64_platforms stage
  let stage_matrices :=
    if windows_matrix ≠ [] then
      dictSet (dictSet stage_matrices "windows" (.mat windows_matrix)) "has_windows" (.flag true)
    else dictSet stage_matrices "has_windows" (.flag false)
  stage_matrices

/-- `build_stage_matrices`: run the loop body for the two wheel stages and
key the results by stage name. -/
def build_stage_matrices (env : Env) (python_versions x86_64_platforms arm64_platforms : List String) :
    List (String × List (String × SVal)) :=
  [(stage_name .BUILD_WHEEL, build_stage_matrices_body env python_versions x86_64_platforms arm64_platforms .BUILD_WHEEL),
   (stage_name .VALIDATE_WHEEL, build_stage_matrices_body env python_versions x86_64_platforms arm64_platforms .VALIDATE_WHEEL)]

/-- `parse_user_config`: resolve the python-version list (falling back to
the full whitelist when the user supplied none that survive) and the two
platform groups. -/
def parse_user_config (env : Env) (user_config : List (String × JVal)) : List (String × List String) :=
  let versions := set_python_versions env
    (pyDictGet user_config "python_versions" (pyDictGet user_config "python-versions" (.str "")))
  let cfg : List (String × List String) := []
  let cfg :=
    if versions ≠ [] then dictSet cfg "python_versions" versions
    else dictSet cfg "python_versions" (get_supported_python_versions env)
  let user_platforms := pyDictGet user_config "platforms" (.str "")
  let user_arches := pyDictGet user_config "arches" (.str "")
  let groups := set_os_and_arch env user_platforms user_arches
  let cfg := dictSet cfg "x86_64_platforms" groups.1
  dictSet cfg "arm64_platforms" groups.2

/-- `get_stage_matrices`: build the matrices from the parsed user config
(the script then prints them as JSON). -/
def get_stage_matrices (env : Env) (user_config : List (String × JVal)) :
    List (String × List (String × SVal)) :=
  let config := parse_user_config env user_config
  build_stage_matrices env ((config.lookup "python_versions").getD [])
    ((config.lookup "x86_64_platforms").getD []) ((config.lookup "arm64_platforms").getD [])

/-- `build_default_config`: stage-dependent adjustment of the static table,
followed by substituting the project code into every alias template. -/
def build_default_config (stage : ConfigStage) (project : SdkProject) (env : Env) :
    List (String × ConfigOption) :=
  let config := DEFAULT_CONFIG
  let config :=
    match stage with
    | .BUILD_SDIST => dictUpdate config "SET_CPM_CACHE" (fun o => { o with required := true })
    | .BUILD_WHEEL =>
      let config := dictUpdate config "BUILD_TYPE" (fun o => { o with required := true })
      let config :=
        match env.prefer_ccache with
        | some prefer_ccache =>
          if prefer_ccache ≠ "" then
            let config := dictUpdate config "CB_CACHE_OPTION"
              (fun o => { o with required := true, default := some "ccache" })
            dictSet config "CCACHE_DIR"
              { required := true, default := some prefer_ccache, description := none, sdk_alias := "CCACHE_DIR" }
          else config
        | none => config
      match env.prefer_verbose_makefile with
      | some prefer_verbose =>
        if prefer_verbose ≠ "" then
          dictUpdate config "VERBOSE_MAKEFILE" (fun o => { o with required := true, default := some "ON" })
        else config
      | none => config
    | .VALIDATE_WHEEL => config
  config.map (fun p => (p.1, { p.2 with sdk_alias := pyReplace p.2.sdk_alias "SDKPROJECT" project.value }))

/-- The merge loop of `parse_config`: walk the user items in order, skipping
reserved matrix keys and unrecognized keys, coercing values that Python
considers equal to `True`/`False` to the tokens `ON`/`OFF`, and passing
every other value through unchanged. -/
def merge_user_config (default_cfg : List (String × ConfigOption)) :
    List (String × JVal) → List (String × JVal) → List (String × JVal)
  | cfg, [] => cfg
  | cfg, kv :: rest =>
    let cfg :=
      if kv.1 ∈ STAGE_MATRIX_KEYS then cfg
      else if (default_cfg.lookup kv.1).isNone then cfg
      else if kv.2.eqPyBool true || kv.2.eqPyBool false then
        dictSet cfg kv.1 (.str (if kv.2.pyTruthy then "ON" else "OFF"))
      else dictSet cfg kv.1 kv.2
    merge_user_config default_cfg cfg rest

/-- The defaults loop of `parse_config`: for each required option, in table
order, fill in its default when it is still unset and the default is not
`None`. -/
def apply_required_defaults (default_cfg : List (String × ConfigOption)) :
    List (String × JVal) → List String → List (String × JVal)
  | cfg, [] => cfg
  | cfg, k :: ks =>
    let cfg :=
      if (cfg.lookup k).isNone then
        match (default_cfg.lookup k).bind ConfigOption.default with
        | some d => dictSet cfg k (.str d)
        | none => cfg
      else cfg
    apply_required_defaults default_cfg cfg ks

/-- `parse_config`: resolve the project (fatal when unresolvable), build the
stage-adjusted default table, merge the user configuration, fill required
defaults, and emit `alias=value` tokens (the script prints them joined by
single spaces).  Returns the final mapping together with the token list. -/
def parse_config (env : Env) (config_stage : ConfigStage) (user_config : List (String × JVal)) :
    Option (List (String × JVal) × List String) :=
  match SdkProject.from_env env with
  | none => none
  | some sdk_project =>
    let default_cfg := build_default_config config_stage sdk_project env
    let cfg := merge_user_config default_cfg [] user_config
    let required_defaults := (default_cfg.filter (fun kv => kv.2.required == true)).map Prod.fst
    let cfg := apply_required_defaults default_cfg cfg required_defaults
    some (cfg, cfg.map (fun kv =>
      (((default_cfg.lookup kv.1).map ConfigOption.sdk_alias).getD "") ++ "=" ++ kv.2.render))

/-- `parse_wheel_name`: split on hyphens; fatal when fewer than 5 tokens
result or the leading token differs from the project name; otherwise print
the first two tokens rejoined with a hyphen. -/
def parse_wheel_name (wheelname project_name : String) : Except String String :=
  let tokens := pySplitOn wheelname (Char.ofNat 45)
  if tokens.length < 5 then
    .error ("Expected at least 5 tokens, found " ++ toString tokens.length ++ ".")
  else if tokens.headD "" ≠ project_name then
    .error ("Expected at project name to be " ++ project_name ++ ", found " ++ tokens.headD "" ++ ".")
  else .ok (pyJoin "-" (tokens.take 2))

/-- The command a dispatcher invocation resolves to, with the command-line
arguments it consumes. -/
inductive CmdAction where
  | parseSdistConfig : String → CmdAction
  | getStageMatrices : String → CmdAction
  | parseWheelConfig : String → CmdAction
  | parseWheelName : String → String → CmdAction
deriving DecidableEq

/-- Outcome of the `__main__` dispatcher: a dispatched command, a printed
diagnostic followed by `sys.exit(1)`, or an uncaught `IndexError` from an
out-of-range `sys.argv` access. -/
inductive CmdResult where
  | dispatched : CmdAction → CmdResult
  | exitError : String → CmdResult
  | indexError : CmdResult
deriving DecidableEq

/-- The `__main__` block: guard `len(sys.argv) < 3`, then dispatch on
`sys.argv[1]`; every `sys.argv[i]` access is modelled by `List.get?`, with
an out-of-range access producing `CmdResult.indexError`. -/
def main_dispatch (argv : List String) : CmdResult :=
  if argv.length < 3 then .exitError "Expected more input args."
  else
    match argv.get? 1 with
    | none => .indexError
    | some cmd =>
      if cmd = "parse_sdist_config" then
        match argv.get? 2 with
        | some k => .dispatched (.parseSdistConfig k)
        | none => .indexError
      else if cmd = "get_stage_matrices" then
        match argv.get? 2 with
        | some k => .dispatched (.getStageMatrices k)
        | none => .indexError
      else if cmd = "parse_wheel_config" then
        match argv.get? 2 with
        | some k => .dispatched (.parseWheelConfig k)
        | none => .indexError
      else if cmd = "parse_wheel_name" then
        match argv.get? 2, argv.get? 3 with
        | some w, some p => .dispatched (.parseWheelName w p)
        | _, _ => .indexError
      else .exitError ("Invalid command: " ++ cmd)

/-- A sample CI environment used to instantiate the theorems below at
concrete inputs. -/
def sampleEnv : Env :=
  { supported_python_versions := ["3.9", "3.10", "3.11", "3.12"]
    supported_x86_64_platforms := ["linux", "macos", "windows", "alpine"]
    supported_arm64_platforms := ["linux", "macos"]
    default_linux_container := "manylinux-img"
    default_alpine_container := "alpine-img"
    default_linux_platform := "ubuntu-22.04"
    default_macos_x86_64_platform := "macos-13"
    default_macos_arm64_platform := "macos-14"
    default_windows_platform := "windows-2022"
    prefer_ccache := none
    prefer_verbose_makefile := none
    project_type := "PYCBC" }

theorem lookup_dictSet_self {α : Type} (d : List (String × α)) (k : String) (v : α) :
    (dictSet d k v).lookup k = some v := by
  induction d with
  | nil => simp [dictSet]
  | cons p t ih =>
    obtain ⟨a, b⟩ := p
    by_cases h : a = k
    · simp [dictSet, h]
    · have hba : (k == a) = false := beq_eq_false_iff_ne.mpr (Ne.symm h)
      simp [dictSet, h, List.lookup_cons, hba, ih]

theorem lookup_dictSet_ne {α : Type} (d : List (String × α)) (k k2 : String) (v : α)
    (h : k2 ≠ k) : (dictSet d k v).lookup k2 = d.lookup k2 := by
  induction d with
  | nil =>
    have hbk : (k2 == k) = false := beq_eq_false_iff_ne.mpr h
    simp [dictSet, List.lookup_cons, hbk]
  | cons p t ih =>
    obtain ⟨a, b⟩ := p
    by_cases hak : a = k
    · subst hak
      have hbk : (k2 == a) = false := beq_eq_false_iff_ne.mpr h
      simp [dictSet, List.lookup_cons, hbk]
    · cases hb : (k2 == a) <;> simp [dictSet, hak, List.lookup_cons, hb, ih]

theorem dictSet_ne_nil {α : Type} (d : List (String × α)) (k : String) (v : α) :
    dictSet d k v ≠ [] := by
  cases d with
  | nil => simp [dictSet]
  | cons p t =>
    obtain ⟨a, b⟩ := p
    by_cases h : a = k <;> simp [dictSet, h]

/-- C2: the claim says `set_os_and_arch` filters the x86_64 platform group
against the x86_64 whitelist and the arm64 group against the arm64
whitelist.  In the code both groups filter against
`get_supported_platforms(arch)` where `arch` is the leftover loop variable
of the architecture loop.  With requested arches `"x86_64 arm64"` the
leftover is `"arm64"`, so the requested platform `"windows"` — which is in
the x86_64 whitelist — is filtered against the arm64 whitelist, dropped,
and the x86_64 group silently falls back to the whole whitelist instead of
being `["windows"]` as the claim requires. -/
theorem c2_x86_group_filtered_against_arm64_whitelist :
    "windows" ∈ sampleEnv.supported_x86_64_platforms
    ∧ set_os_and_arch sampleEnv (.str "windows") (.str "x86_64 arm64") =
        (["linux", "macos", "windows", "alpine"], ["linux", "macos"])
    ∧ (set_os_and_arch sampleEnv (.str "windows") (.str "x86_64 arm64")).1 ≠ ["windows"] := by
  decide

/-- C3: the claim says every unsupported architecture entry is dropped and
an empty filtered list defaults to `["x86_64", "arm64"]`.  The code removes
elements from the list it is iterating over, so removing `"foo"` skips the
following entry `"bar"`: the result for `"foo bar"` is `["bar"]` — an
unsupported entry survives and the default is not applied.  (The claim's
particular instance does hold: `"arm64,aarch64"` normalizes to
`["arm64"]`.) -/
theorem c3_remove_during_iteration_skips_entries :
    (normalize_arches (.str "foo bar")).1 = ["bar"]
    ∧ "bar" ∉ get_supported_architectures
    ∧ (normalize_arches (.str "foo bar")).1 ≠ get_supported_architectures.dropLast
    ∧ (normalize_arches (.str "arm64,aarch64")).1 = ["arm64"] := by
  decide

/-- C9: the claim says the dispatcher's `len(sys.argv) >= 3` guard suffices
for every recognized command.  For `parse_wheel_name` the handler reads
`sys.argv[3]`, so an invocation with a filename but no project name passes
the guard and then hits an out-of-range access (an uncaught `IndexError`). -/
theorem c9_parse_wheel_name_index_error :
    ¬ (["pygha.py", "parse_wheel_name",
        "pycbc-4.1.0-cp311-cp311-linux_x86_64"].length < 3)
    ∧ main_dispatch ["pygha.py", "parse_wheel_name",
        "pycbc-4.1.0-cp311-cp311-linux_x86_64"] = .indexError := by
  decide

/-- C6: `is_supported_python_version` accepts the bare major version `"3"`
for every whitelist; a two-token version is accepted iff it appears
verbatim in the whitelist (hence `"4.0"` is rejected whenever the whitelist
does not list it); a three-token version is accepted iff its first two
tokens rejoined appear in the whitelist (hence `"3.12.1"` is accepted iff
`"3.12"` is whitelisted). -/
theorem c6_is_supported_python_version_spec (env : Env) :
    is_supported_python_version env "3" = true
    ∧ (∀ v a b, pySplitOn v (Char.ofNat 46) = [a, b] →
        (is_supported_python_version env v = true ↔ v ∈ get_supported_python_versions env))
    ∧ ("4.0" ∉ get_supported_python_versions env →
        is_supported_python_version env "4.0" = false)
    ∧ (∀ v a b c, pySplitOn v (Char.ofNat 46) = [a, b, c] →
        (is_supported_python_version env v = true ↔
          pyJoin "." [a, b] ∈ get_supported_python_versions env))
    ∧ (is_supported_python_version env "3.12.1" = true ↔
        "3.12" ∈ get_supported_python_versions env) := by
  refine ⟨rfl, ?_, ?_, ?_, ?_⟩
  · intro v a b h
    simp [is_supported_python_version, h]
  · intro h
    exact decide_eq_false h
  · intro v a b c h
    simp [is_supported_python_version, h, pyJoin]
  · show decide ("3.12" ∈ get_supported_python_versions env) = true ↔ _
    exact decide_eq_true_iff

/-- C6 witness: the theorem instantiated at the sample environment, with
every hypothesis discharged on concrete versions. -/
theorem c6_is_supported_python_version_spec_witness :
    is_supported_python_version sampleEnv "3" = true
    ∧ is_supported_python_version sampleEnv "3.12" = true
    ∧ is_supported_python_version sampleEnv "4.0" = false
    ∧ is_supported_python_version sampleEnv "3.9.1" = true
    ∧ (is_supported_python_version sampleEnv "3.12.1" = true ↔
        "3.12" ∈ get_supported_python_versions sampleEnv) :=
  ⟨(c6_is_supported_python_version_spec sampleEnv).1,
   ((c6_is_supported_python_version_spec sampleEnv).2.1 "3.12" "3" "12" (by decide)).mpr (by decide),
   (c6_is_supported_python_version_spec sampleEnv).2.2.1 (by decide),
   ((c6_is_supported_python_version_spec sampleEnv).2.2.2.1 "3.9.1" "3" "9" "1" (by decide)).mpr
     (by decide),
   (c6_is_supported_python_version_spec sampleEnv).2.2.2.2⟩

/-- C8: `parse_wheel_name` fails exactly when fewer than five hyphen tokens
result or the leading token differs from the project name; on success it
prints the first two tokens rejoined with a hyphen, and in particular the
sample wheel name prints `"pycbc-4.1.0"`. -/
theorem c8_parse_wheel_name_spec (wheelname project_name : String) :
    ((∃ e, parse_wheel_name wheelname project_name = .error e) ↔
      ((pySplitOn wheelname (Char.ofNat 45)).length < 5
        ∨ (pySplitOn wheelname (Char.ofNat 45)).headD "" ≠ project_name))
    ∧ (5 ≤ (pySplitOn wheelname (Char.ofNat 45)).length →
        (pySplitOn wheelname (Char.ofNat 45)).headD "" = project_name →
        parse_wheel_name wheelname project_name =
          .ok (pyJoin "-" ((pySplitOn wheelname (Char.ofNat 45)).take 2)))
    ∧ parse_wheel_name "pycbc-4.1.0-cp311-cp311-linux_x86_64" "pycbc" = .ok "pycbc-4.1.0" := by
  refine ⟨?_, ?_, rfl⟩
  · by_cases h1 : (pySplitOn wheelname (Char.ofNat 45)).length < 5
    · simp [parse_wheel_name, h1]
    · by_cases h2 : (pySplitOn wheelname (Char.ofNat 45)).headD "" = project_name
      all_goals rw [List.headD_eq_head?_getD] at h2
      · simp [parse_wheel_name, h1, h2]
      · simp [parse_wheel_name, h1, h2]
  · intro h1 h2
    rw [List.headD_eq_head?_getD] at h2
    simp [parse_wheel_name, Nat.not_lt.mpr h1, h2]

/-- C8 witness: the success case applied to the sample wheel name. -/
theorem c8_parse_wheel_name_spec_witness :
    parse_wheel_name "pycbc-4.1.0-cp311-cp311-linux_x86_64" "pycbc" = .ok "pycbc-4.1.0" :=
  (c8_parse_wheel_name_spec "pycbc-4.1.0-cp311-cp311-linux_x86_64" "pycbc").2.1
    (by decide) (by decide)

/-- C4 counterexample: with an empty user configuration and no environment
hints, `parse_config` at the sdist stage emits two tokens — the required
`USE_OPENSSL` option at its default `OFF` as well as `SET_CPM_CACHE` at
`ON` — not the single token the claim asserts. -/
theorem c4_sdist_emits_two_tokens_counterexample :
    (parse_config sampleEnv .BUILD_SDIST []).map Prod.snd =
      some ["PYCBC_USE_OPENSSL=OFF", "PYCBC_SET_CPM_CACHE=ON"]
    ∧ (["PYCBC_USE_OPENSSL=OFF", "PYCBC_SET_CPM_CACHE=ON"] : List String) ≠
        ["PYCBC_SET_CPM_CACHE=ON"] := by
  decide

/-- C4 amended: with an empty user configuration and no environment hints,
`parse_config` at the sdist stage emits exactly two tokens, in table order:
`USE_OPENSSL` (required by the static table) at its default `OFF`, and the
cache-initialization option `SET_CPM_CACHE` (made required by the sdist
stage) at its default `ON`. -/
theorem c4_sdist_config_exact_tokens (env : Env) (p : SdkProject)
    (h : SdkProject.from_env env = some p)
    (hc : env.prefer_ccache = none)
    (hv : env.prefer_verbose_makefile = none) :
    parse_config env .BUILD_SDIST [] =
      some ([("USE_OPENSSL", .str "OFF"), ("SET_CPM_CACHE", .str "ON")],
            [p.value ++ "_USE_OPENSSL=OFF", p.value ++ "_SET_CPM_CACHE=ON"]) := by
  cases p <;> simp only [parse_config, h] <;> rfl

/-- C4 witness: the amended theorem at the sample environment. -/
theorem c4_sdist_config_exact_tokens_witness :
    parse_config sampleEnv .BUILD_SDIST [] =
      some ([("USE_OPENSSL", .str "OFF"), ("SET_CPM_CACHE", .str "ON")],
            ["PYCBC_USE_OPENSSL=OFF", "PYCBC_SET_CPM_CACHE=ON"]) :=
  c4_sdist_config_exact_tokens sampleEnv .Operational rfl rfl rfl

theorem merge_user_config_lookup_of_not_mem (dc : List (String × ConfigOption))
    (uc : List (String × JVal)) (cfg : List (String × JVal)) (key : String)
    (h : key ∉ uc.map Prod.fst) :
    (merge_user_config dc cfg uc).lookup key = cfg.lookup key := by
  induction uc generalizing cfg with
  | nil => rfl
  | cons kv rest ih =>
    simp only [List.map_cons, List.mem_cons, not_or] at h
    obtain ⟨hne, hrest⟩ := h
    rw [merge_user_config, ih _ hrest]
    by_cases h1 : kv.1 ∈ STAGE_MATRIX_KEYS
    · simp [h1]
    · by_cases h2 : (dc.lookup kv.1).isNone
      · simp [h1, h2]
      · by_cases h3 : (kv.2.eqPyBool true || kv.2.eqPyBool false) = true <;>
          simp [h1, h2, h3, lookup_dictSet_ne _ _ _ _ hne]

theorem merge_user_config_lookup_of_mem (dc : List (String × ConfigOption))
    (uc : List (String × JVal)) (cfg : List (String × JVal)) (key : String) (v : JVal)
    (hmem : (key, v) ∈ uc) (hnd : (uc.map Prod.fst).Nodup)
    (hres : key ∉ STAGE_MATRIX_KEYS) (hrec : (dc.lookup key).isSome) :
    (merge_user_config dc cfg uc).lookup key =
      some (if v.eqPyBool true || v.eqPyBool false then
              JVal.str (if v.pyTruthy then "ON" else "OFF") else v) := by
  induction uc generalizing cfg with
  | nil => cases hmem
  | cons kv rest ih =>
    have hnd2 : (rest.map Prod.fst).Nodup := (List.nodup_cons.mp hnd).2
    rcases List.mem_cons.mp hmem with heq | hmem2
    · have hkey : key ∉ rest.map Prod.fst := by
        have := (List.nodup_cons.mp hnd).1
        rw [← heq] at this
        exact this
      obtain ⟨o, ho⟩ := Option.isSome_iff_exists.mp hrec
      rw [merge_user_config, merge_user_config_lookup_of_not_mem _ _ _ _ hkey, ← heq]
      by_cases hb : (v.eqPyBool true || v.eqPyBool false) = true <;>
        simp [hres, ho, hb, lookup_dictSet_self]
    · rw [merge_user_config]
      exact ih _ hmem2 hnd2

theorem apply_required_defaults_lookup_of_some (dc : List (String × ConfigOption))
    (ks : List String) (cfg : List (String × JVal)) (key : String) (x : JVal)
    (h : cfg.lookup key = some x) :
    (apply_required_defaults dc cfg ks).lookup key = some x := by
  induction ks generalizing cfg with
  | nil => exact h
  | cons k rest ih =>
    rw [apply_required_defaults]
    apply ih
    by_cases hk : k = key
    · subst hk
      simp [h]
    · by_cases hg : (cfg.lookup k).isNone
      · cases hd : (dc.lookup k).bind ConfigOption.default <;>
          simp [hg, hd, h, lookup_dictSet_ne _ _ _ _ (Ne.symm hk)]
      · simp [hg, h]

/-- C5 amended: for every recognized, non-reserved key of the user
configuration, a value that Python considers equal to `True` or `False` —
the JSON booleans, but by Python numeric equality also the numbers `1` and
`0` — is coerced to the token `ON` or `OFF`; every other value passes
through to the emitted mapping unchanged. -/
theorem c5_config_value_coercion (env : Env) (stage : ConfigStage) (p : SdkProject)
    (uc : List (String × JVal)) (key : String) (v : JVal)
    (henv : SdkProject.from_env env = some p)
    (hnd : (uc.map Prod.fst).Nodup)
    (hmem : (key, v) ∈ uc)
    (hres : key ∉ STAGE_MATRIX_KEYS)
    (hrec : ((build_default_config stage p env).lookup key).isSome) :
    ∃ cfg tokens, parse_config env stage uc = some (cfg, tokens)
      ∧ cfg.lookup key =
          some (if v.eqPyBool true || v.eqPyBool false then
                  JVal.str (if v.pyTruthy then "ON" else "OFF") else v) := by
  simp only [parse_config, henv]
  refine ⟨_, _, rfl, ?_⟩
  exact apply_required_defaults_lookup_of_some _ _ _ _ _
    (merge_user_config_lookup_of_mem _ _ _ _ _ hmem hnd hres hrec)

/-- C5 witness: a boolean value for the recognized key `USE_OPENSSL` is
coerced to `ON`, via the amended theorem at the sample environment. -/
theorem c5_config_value_coercion_witness :
    ∃ cfg tokens,
      parse_config sampleEnv .BUILD_SDIST [("USE_OPENSSL", .bool true)] = some (cfg, tokens)
      ∧ cfg.lookup "USE_OPENSSL" = some (.str "ON") :=
  c5_config_value_coercion sampleEnv .BUILD_SDIST .Operational
    [("USE_OPENSSL", .bool true)] "USE_OPENSSL" (.bool true)
    rfl (by decide) (by decide) (by decide) (by decide)

/-- C5 counterexample: the claim says non-boolean values — including
numbers — pass through unchanged, but the JSON number `1` supplied for the
recognized key `BUILD_TYPE` is emitted as the token `ON`, because Python's
`1 in [True, False]` is true. -/
theorem c5_number_coerced_counterexample :
    (parse_config sampleEnv .BUILD_SDIST [("BUILD_TYPE", .num 1)]).map
        (fun r => r.1.lookup "BUILD_TYPE") = some (some (.str "ON"))
    ∧ JVal.str "ON" ≠ .num 1 := by
  decide

/-- C1 counterexample: with x86_64 platforms `["alpine"]` and arm64
platforms `["linux"]`, `"alpine"` is among the x86_64 platforms yet the
produced arch list is `["aarch64"]` — it does not include `"x86_64"`,
contradicting the claim's alpine row (the code only sets
`arch = ["x86_64"]` when no arch entry exists yet). -/
theorem c1_alpine_arm64_counterexample :
    "alpine" ∈ (["alpine"] : List String)
    ∧ getStrs (build_linux_stage_matrix sampleEnv ["3.9"] ["alpine"] ["linux"]
        .BUILD_WHEEL) "arch" = ["aarch64"]
    ∧ "x86_64" ∉ getStrs (build_linux_stage_matrix sampleEnv ["3.9"] ["alpine"] ["linux"]
        .BUILD_WHEEL) "arch" := by
  decide

/-- C1 amended: the wheel-build Linux decision table holds with the alpine
row corrected: requesting `"alpine"` for x86_64 ensures `"musllinux"` in
linux-type, but sets arch to `["x86_64"]` only when no arch entry exists
yet — so `"x86_64"` is present unless the only prior rule was the
arm64-linux rule, in which case arch stays `["aarch64"]`.  The other rows,
the python-version attachment, the musllinux/aarch64 exclusion pair, and
the claim's particular example all hold as stated. -/
theorem c1_linux_wheel_decision_table (env : Env) (pv x86 arm : List String)
    (m : List (String × MVal))
    (hm : m = build_linux_stage_matrix env pv x86 arm .BUILD_WHEEL) :
    (("linux" ∈ x86 → "manylinux" ∈ getStrs m "linux-type" ∧ "x86_64" ∈ getStrs m "arch")
      ∧ ("linux" ∈ arm → "manylinux" ∈ getStrs m "linux-type" ∧ "aarch64" ∈ getStrs m "arch")
      ∧ ("alpine" ∈ x86 → "musllinux" ∈ getStrs m "linux-type"
          ∧ ("linux" ∈ x86 ∨ "linux" ∉ arm → "x86_64" ∈ getStrs m "arch")
          ∧ ("linux" ∉ x86 → "linux" ∈ arm → "x86_64" ∉ getStrs m "arch"))
      ∧ (m ≠ [] → m.lookup "python-version" = some (.strs pv))
      ∧ ("aarch64" ∈ getStrs m "arch" → "musllinux" ∈ getStrs m "linux-type" →
          m.lookup "exlude" = some (.excl [[("linux-type", "musllinux"), ("arch", "aarch64")]])))
    ∧ (getStrs (build_linux_stage_matrix env pv ["linux", "alpine"] ["linux"] .BUILD_WHEEL)
          "linux-type" = ["manylinux", "musllinux"]
        ∧ getStrs (build_linux_stage_matrix env pv ["linux", "alpine"] ["linux"] .BUILD_WHEEL)
            "arch" = ["x86_64", "aarch64"]
        ∧ (build_linux_stage_matrix env pv ["linux", "alpine"] ["linux"] .BUILD_WHEEL).lookup
            "exlude" = some (.excl [[("linux-type", "musllinux"), ("arch", "aarch64")]])) := by
  subst hm
  constructor
  · by_cases h1 : "linux" ∈ x86 <;> by_cases h2 : "linux" ∈ arm <;>
      by_cases h3 : "alpine" ∈ x86 <;>
      simp [build_linux_stage_matrix, h1, h2, h3, dictSet, getStrs, List.lookup_cons]
  · exact ⟨rfl, rfl, rfl⟩

/-- C1 witness: the amended theorem applied to the claim's particular
example, discharging each row's premise on concrete platform lists. -/
theorem c1_linux_wheel_decision_table_witness :
    ("manylinux" ∈ getStrs (build_linux_stage_matrix sampleEnv ["3.9"] ["linux", "alpine"]
        ["linux"] .BUILD_WHEEL) "linux-type"
      ∧ "x86_64" ∈ getStrs (build_linux_stage_matrix sampleEnv ["3.9"] ["linux", "alpine"]
        ["linux"] .BUILD_WHEEL) "arch")
    ∧ (build_linux_stage_matrix sampleEnv ["3.9"] ["linux", "alpine"] ["linux"]
        .BUILD_WHEEL).lookup "python-version" = some (.strs ["3.9"])
    ∧ getStrs (build_linux_stage_matrix sampleEnv ["3.9"] ["linux", "alpine"] ["linux"]
        .BUILD_WHEEL) "arch" = ["x86_64", "aarch64"] :=
  ⟨(c1_linux_wheel_decision_table sampleEnv ["3.9"] ["linux", "alpine"] ["linux"] _ rfl).1.1
      (by decide),
   (c1_linux_wheel_decision_table sampleEnv ["3.9"] ["linux", "alpine"] ["linux"] _ rfl).1.2.2.2.1
      (by decide),
   (c1_linux_wheel_decision_table sampleEnv ["3.9"] ["linux", "alpine"] ["linux"] _ rfl).2.2.1⟩

theorem build_stage_matrices_body_eq (env : Env) (pv x86 arm : List String) (stage : ConfigStage) :
    build_stage_matrices_body env pv x86 arm stage =
      (if build_linux_stage_matrix env pv x86 arm stage ≠ [] then
        [("linux", .mat (build_linux_stage_matrix env pv x86 arm stage)), ("has_linux", .flag true)]
       else [("has_linux", .flag false)])
      ++ (if build_macos_stage_matrix env pv x86 arm stage ≠ [] then
        [("macos", .mat (build_macos_stage_matrix env pv x86 arm stage)), ("has_macos", .flag true)]
       else [("has_macos", .flag false)])
      ++ (if build_windows_stage_matrix env pv x86 arm stage ≠ [] then
        [("windows", .mat (build_windows_stage_matrix env pv x86 arm stage)), ("has_windows", .flag true)]
       else [("has_windows", .flag false)]) := by
  by_cases hL : build_linux_stage_matrix env pv x86 arm stage = [] <;>
    by_cases hM : build_macos_stage_matrix env pv x86 arm stage = [] <;>
    by_cases hW : build_windows_stage_matrix env pv x86 arm stage = [] <;>
    simp [build_stage_matrices_body, dictSet, hL, hM, hW]

theorem linux_matrix_python_version (env : Env) (pv x86 arm : List String) (stage : ConfigStage)
    (h : build_linux_stage_matrix env pv x86 arm stage ≠ []) :
    (build_linux_stage_matrix env pv x86 arm stage).lookup "python-version" = some (.strs pv) := by
  cases stage
  · simp [build_linux_stage_matrix] at h
  all_goals
    revert h
    by_cases h1 : "linux" ∈ x86 <;> by_cases h2 : "linux" ∈ arm <;>
      by_cases h3 : "alpine" ∈ x86 <;>
      simp [build_linux_stage_matrix, h1, h2, h3, dictSet, getStrs, List.lookup_cons]
  all_goals (split <;> simp [dictSet, List.lookup_cons])

theorem macos_matrix_python_version (env : Env) (pv x86 arm : List String) (stage : ConfigStage)
    (h : build_macos_stage_matrix env pv x86 arm stage ≠ []) :
    (build_macos_stage_matrix env pv x86 arm stage).lookup "python-version" = some (.strs pv) := by
  cases stage
  · simp [build_macos_stage_matrix] at h
  all_goals
    revert h
    by_cases h1 : "macos" ∈ x86 <;> by_cases h2 : "macos" ∈ arm <;>
      simp [build_macos_stage_matrix, h1, h2, dictSet, getStrs, List.lookup_cons]

theorem windows_matrix_python_version (env : Env) (pv x86 arm : List String) (stage : ConfigStage)
    (h : build_windows_stage_matrix env pv x86 arm stage ≠ []) :
    (build_windows_stage_matrix env pv x86 arm stage).lookup "python-version" = some (.strs pv) := by
  cases stage
  · simp [build_windows_stage_matrix] at h
  all_goals
    revert h
    by_cases h1 : "windows" ∈ x86 <;>
      simp [build_windows_stage_matrix, h1, dictSet, getStrs, List.lookup_cons]

theorem stage_body_lookup_linux (env : Env) (pv x86 arm : List String) (stage : ConfigStage)
    (m : List (String × MVal))
    (h : (build_stage_matrices_body env pv x86 arm stage).lookup "linux" = some (.mat m)) :
    m = build_linux_stage_matrix env pv x86 arm stage
      ∧ build_linux_stage_matrix env pv x86 arm stage ≠ [] := by
  rw [build_stage_matrices_body_eq] at h
  by_cases hL : build_linux_stage_matrix env pv x86 arm stage = [] <;>
    by_cases hM : build_macos_stage_matrix env pv x86 arm stage = [] <;>
    by_cases hW : build_windows_stage_matrix env pv x86 arm stage = [] <;>
    simp [hL, hM, hW, List.lookup_append, List.lookup_cons] at h <;>
    exact ⟨h.symm, hL⟩

theorem stage_body_lookup_macos (env : Env) (pv x86 arm : List String) (stage : ConfigStage)
    (m : List (String × MVal))
    (h : (build_stage_matrices_body env pv x86 arm stage).lookup "macos" = some (.mat m)) :
    m = build_macos_stage_matrix env pv x86 arm stage
      ∧ build_macos_stage_matrix env pv x86 arm stage ≠ [] := by
  rw [build_stage_matrices_body_eq] at h
  by_cases hL : build_linux_stage_matrix env pv x86 arm stage = [] <;>
    by_cases hM : build_macos_stage_matrix env pv x86 arm stage = [] <;>
    by_cases hW : build_windows_stage_matrix env pv x86 arm stage = [] <;>
    simp [hL, hM, hW, List.lookup_append, List.lookup_cons] at h <;>
    exact ⟨h.symm, hM⟩

theorem stage_body_lookup_windows (env : Env) (pv x86 arm : List String) (stage : ConfigStage)
    (m : List (String × MVal))
    (h : (build_stage_matrices_body env pv x86 arm stage).lookup "windows" = some (.mat m)) :
    m = build_windows_stage_matrix env pv x86 arm stage
      ∧ build_windows_stage_matrix env pv x86 arm stage ≠ [] := by
  rw [build_stage_matrices_body_eq] at h
  by_cases hL : build_linux_stage_matrix env pv x86 arm stage = [] <;>
    by_cases hM : build_macos_stage_matrix env pv x86 arm stage = [] <;>
    by_cases hW : build_windows_stage_matrix env pv x86 arm stage = [] <;>
    simp [hL, hM, hW, List.lookup_append, List.lookup_cons] at h <;>
    exact ⟨h.symm, hW⟩

/-- C7: the top-level result of `build_stage_matrices` maps exactly the two
stage names `build_wheels` and `validate_wheels`; each stage's dict carries
the three `has_<family>` flags whatever the fragments are, and a family key
is present in the stage dict iff its flag is true iff the corresponding
family fragment is non-empty. -/
theorem stage_body_shape (env : Env) (pv x86 arm : List String) (stage : ConfigStage) :
    (∃ b, (build_stage_matrices_body env pv x86 arm stage).lookup "has_linux" = some (.flag b)
      ∧ ((b = true) ↔ ∃ fm,
          (build_stage_matrices_body env pv x86 arm stage).lookup "linux" = some (.mat fm))
      ∧ ((b = true) ↔ build_linux_stage_matrix env pv x86 arm stage ≠ []))
    ∧ (∃ b, (build_stage_matrices_body env pv x86 arm stage).lookup "has_macos" = some (.flag b)
      ∧ ((b = true) ↔ ∃ fm,
          (build_stage_matrices_body env pv x86 arm stage).lookup "macos" = some (.mat fm))
      ∧ ((b = true) ↔ build_macos_stage_matrix env pv x86 arm stage ≠ []))
    ∧ (∃ b, (build_stage_matrices_body env pv x86 arm stage).lookup "has_windows" = some (.flag b)
      ∧ ((b = true) ↔ ∃ fm,
          (build_stage_matrices_body env pv x86 arm stage).lookup "windows" = some (.mat fm))
      ∧ ((b = true) ↔ build_windows_stage_matrix env pv x86 arm stage ≠ [])) := by
  rw [build_stage_matrices_body_eq]
  by_cases hL : build_linux_stage_matrix env pv x86 arm stage = [] <;>
    by_cases hM : build_macos_stage_matrix env pv x86 arm stage = [] <;>
    by_cases hW : build_windows_stage_matrix env pv x86 arm stage = [] <;>
    simp [hL, hM, hW, List.lookup_append, List.lookup_cons]

/-- C7: the top-level result of `build_stage_matrices` maps exactly the two
stage names `build_wheels` and `validate_wheels`; each stage's dict carries
the three `has_<family>` flags whatever the fragments are, and a family key
is present in the stage dict iff its flag is true iff the corresponding
family fragment is non-empty. -/
theorem c7_stage_matrices_shape (env : Env) (pv x86 arm : List String) :
    (build_stage_matrices env pv x86 arm).map Prod.fst = ["build_wheels", "validate_wheels"]
    ∧ (∀ stage, stage = ConfigStage.BUILD_WHEEL ∨ stage = ConfigStage.VALIDATE_WHEEL →
        ∀ sd, (build_stage_matrices env pv x86 arm).lookup (stage_name stage) = some sd →
        (∃ b, sd.lookup "has_linux" = some (.flag b)
          ∧ ((b = true) ↔ ∃ fm, sd.lookup "linux" = some (.mat fm))
          ∧ ((b = true) ↔ build_linux_stage_matrix env pv x86 arm stage ≠ []))
        ∧ (∃ b, sd.lookup "has_macos" = some (.flag b)
          ∧ ((b = true) ↔ ∃ fm, sd.lookup "macos" = some (.mat fm))
          ∧ ((b = true) ↔ build_macos_stage_matrix env pv x86 arm stage ≠ []))
        ∧ (∃ b, sd.lookup "has_windows" = some (.flag b)
          ∧ ((b = true) ↔ ∃ fm, sd.lookup "windows" = some (.mat fm))
          ∧ ((b = true) ↔ build_windows_stage_matrix env pv x86 arm stage ≠ []))) := by
  refine ⟨rfl, ?_⟩
  rintro stage (rfl | rfl) sd hsd <;>
    simp [build_stage_matrices, stage_name, List.lookup_cons] at hsd <;>
    subst hsd <;>
    exact stage_body_shape env pv x86 arm _

/-- C7 witness: the theorem applied at the sample environment for the
wheel-build stage, with the stage and lookup hypotheses discharged. -/
theorem c7_stage_matrices_shape_witness :
    ∃ b, (build_stage_matrices_body sampleEnv ["3.9"] ["linux"] []
        .BUILD_WHEEL).lookup "has_linux" = some (.flag b)
      ∧ ((b = true) ↔ ∃ fm, (build_stage_matrices_body sampleEnv ["3.9"] ["linux"] []
          .BUILD_WHEEL).lookup "linux" = some (.mat fm))
      ∧ ((b = true) ↔ build_linux_stage_matrix sampleEnv ["3.9"] ["linux"] []
          .BUILD_WHEEL ≠ []) :=
  ((c7_stage_matrices_shape sampleEnv ["3.9"] ["linux"] []).2 .BUILD_WHEEL (Or.inl rfl)
    _ rfl).1

/-- C10: when the user configuration supplies no Python versions, or every
supplied version is unsupported (so `set_python_versions` filters it to
`[]`), `parse_user_config` falls back to the full supported-version
whitelist, and every family fragment attached to either stage of
`get_stage_matrices` carries exactly that whitelist as its python-version
list. -/
theorem c10_python_version_fallback (env : Env) (uc : List (String × JVal))
    (h : set_python_versions env
      (pyDictGet uc "python_versions" (pyDictGet uc "python-versions" (.str ""))) = []) :
    (parse_user_config env uc).lookup "python_versions" =
        some (get_supported_python_versions env)
    ∧ ∀ sn sd, (sn, sd) ∈ get_stage_matrices env uc →
      ∀ fam, fam ∈ (["linux", "macos", "windows"] : List String) →
      ∀ fm, sd.lookup fam = some (.mat fm) →
      fm.lookup "python-version" = some (.strs (get_supported_python_versions env)) := by
  have hcfg : (parse_user_config env uc).lookup "python_versions" =
      some (get_supported_python_versions env) := by
    simp only [parse_user_config, h, ne_eq, not_true_eq_false, if_false]
    rw [lookup_dictSet_ne _ _ _ _ (by decide), lookup_dictSet_ne _ _ _ _ (by decide),
      lookup_dictSet_self]
  refine ⟨hcfg, ?_⟩
  intro sn sd hmem fam hfam fm hlook
  simp only [get_stage_matrices, hcfg, Option.getD_some, build_stage_matrices,
    List.mem_cons, List.not_mem_nil, or_false, Prod.mk.injEq] at hmem
  have hfam3 : fam = "linux" ∨ fam = "macos" ∨ fam = "windows" := by simpa using hfam
  rcases hmem with ⟨hsn, hsd⟩ | ⟨hsn, hsd⟩ <;> subst hsd <;>
    rcases hfam3 with rfl | rfl | rfl
  · obtain ⟨rfl, hne⟩ := stage_body_lookup_linux _ _ _ _ _ _ hlook
    exact linux_matrix_python_version _ _ _ _ _ hne
  · obtain ⟨rfl, hne⟩ := stage_body_lookup_macos _ _ _ _ _ _ hlook
    exact macos_matrix_python_version _ _ _ _ _ hne
  · obtain ⟨rfl, hne⟩ := stage_body_lookup_windows _ _ _ _ _ _ hlook
    exact windows_matrix_python_version _ _ _ _ _ hne
  · obtain ⟨rfl, hne⟩ := stage_body_lookup_linux _ _ _ _ _ _ hlook
    exact linux_matrix_python_version _ _ _ _ _ hne
  · obtain ⟨rfl, hne⟩ := stage_body_lookup_macos _ _ _ _ _ _ hlook
    exact macos_matrix_python_version _ _ _ _ _ hne
  · obtain ⟨rfl, hne⟩ := stage_body_lookup_windows _ _ _ _ _ _ hlook
    exact windows_matrix_python_version _ _ _ _ _ hne

/-- C10 witness: an empty user configuration filters to no versions, and
the parsed configuration falls back to the sample whitelist. -/
theorem c10_python_version_fallback_witness :
    set_python_versions sampleEnv
      (pyDictGet [] "python_versions" (pyDictGet [] "python-versions" (.str ""))) = []
    ∧ (parse_user_config sampleEnv []).lookup "python_versions" =
        some (get_supported_python_versions sampleEnv) :=
  ⟨by decide, (c10_python_version_fallback sampleEnv [] (by decide)).1⟩
